import Mathlib

/-!
Verification development for a browser customer-service call demo.

The development shallowly embeds the logic of `src/lib/ai-services.ts`
(keyword question detection, canned responses, speech-to-text and
text-to-speech guard logic) and of `src/components/CallInterface.tsx`
(the call-session state machine: the periodic recording tick, message
appending, and call finalisation with persistence of ended sessions).

JavaScript strings are modelled as Lean `String`s; `toLowerCase`,
`toUpperCase`, `trim` and `includes` are modelled on the underlying
character lists.  JavaScript case mapping follows the full Unicode
tables; the model implements the ASCII mapping exactly (where Lean's
`Char.toLower`/`Char.toUpper` coincide with it) and additionally the
non-ASCII simple case mappings exercised in this development (the
dotless i U+0131 and the Kelvin sign U+212A).  Network effects
(`fetch`) are modelled by passing the would-be HTTP response as an
explicit argument, and fallible operations return `Except`.  React
`useState` state is modelled by explicit state passing on a record of
the component's state variables; functions created by a render close
over that render's state values, so the operations that the source
defines inside the component take both the current store and the
render-captured snapshot from which they read.
-/

/-- Model of a JavaScript string `s.includes(pat)`: `pat` occurs as a
contiguous substring of `s`. -/
def jsIncludes (s pat : String) : Bool :=
  decide (List.IsInfix pat.data s.data)

/-- Model of JavaScript `s.trim()` on the character list: drop whitespace
from the front, then from the back. -/
def trimChars (l : List Char) : List Char :=
  ((l.dropWhile Char.isWhitespace).reverse.dropWhile Char.isWhitespace).reverse

/-- Model of JavaScript `s.trim()`. -/
def jsTrim (s : String) : String :=
  ⟨trimChars s.data⟩

/-- The dotless small i, U+0131, whose JavaScript `toUpperCase` image is
the ASCII `I`. -/
def dotlessI : Char := Char.ofNat 305

/-- The Kelvin sign, U+212A, whose JavaScript `toLowerCase` image is the
ASCII `k`. -/
def kelvinSign : Char := Char.ofNat 8490

/-- Model of JavaScript per-character `toLowerCase`: the ASCII mapping
(on which Lean's `Char.toLower` agrees with JS exactly) together with
the non-ASCII Unicode simple case mappings exercised in this
development. -/
def jsCharToLower (c : Char) : Char :=
  if c = kelvinSign then 'k' else c.toLower

/-- Model of JavaScript per-character `toUpperCase`: the ASCII mapping
together with the non-ASCII Unicode simple case mappings exercised in
this development. -/
def jsCharToUpper (c : Char) : Char :=
  if c = dotlessI then 'I' else c.toUpper

/-- Model of JavaScript `s.toLowerCase()`. -/
def jsToLower (s : String) : String :=
  ⟨s.data.map jsCharToLower⟩

/-- Model of JavaScript `s.toUpperCase()`. -/
def jsToUpper (s : String) : String :=
  ⟨s.data.map jsCharToUpper⟩

/-- The normalisation performed at the start of `detectQuestion`:
`message.toLowerCase().trim()`. -/
def normalizeMessage (message : String) : String :=
  jsToLower (jsTrim message)

/-- The API keys record from `ai-services.ts` (`interface ApiKeys`). -/
structure ApiKeys where
  openaiKey : String
  elevenlabsKey : String
deriving DecidableEq

/-- The `AIServices` class state: it only carries the API keys. -/
structure AIServices where
  apiKeys : ApiKeys
deriving DecidableEq

/-- The `"hours"` entry of `predefinedResponses`. -/
def hoursResponse : String :=
  "We\x27re open Monday through Friday, 9 AM to 6 PM Eastern Time. We\x27re closed on weekends and holidays."

/-- The `"return"` entry of `predefinedResponses`. -/
def returnResponse : String :=
  "We offer a 30-day return policy for all items. Items must be in original condition with receipt. Free return shipping is included."

/-- The `"tracking"` entry of `predefinedResponses`. -/
def trackingResponse : String :=
  "You can track your order using the tracking number sent to your email, or log into your account on our website to view real-time updates."

/-- The fallback guidance string returned by `generateResponse` when no
seeded question is detected. -/
def fallbackResponse : String :=
  "Hi! I can help you with three main topics: our business hours, return policy, or order tracking. Please ask me about one of those and I\x27ll give you a quick answer!"

/-- The `predefinedResponses` object: a partial map from question keys to
canned answers (`undefined`, i.e. `none`, on every other key). -/
def predefinedResponses : String → Option String
  | "hours" => some hoursResponse
  | "return" => some returnResponse
  | "tracking" => some trackingResponse
  | _ => none

/-- `AIServices.detectQuestion`: keyword matching deciding which of the
three supported questions is being asked (`null` is `none`). -/
def detectQuestion (message : String) : Option String :=
  let normalizedMessage := normalizeMessage message
  if (jsIncludes normalizedMessage "hour" || jsIncludes normalizedMessage "open" ||
      jsIncludes normalizedMessage "time" || jsIncludes normalizedMessage "when") &&
     (jsIncludes normalizedMessage "what" || jsIncludes normalizedMessage "when" ||
      jsIncludes normalizedMessage "your") then
    some "hours"
  else if (jsIncludes normalizedMessage "return" || jsIncludes normalizedMessage "refund" ||
      jsIncludes normalizedMessage "policy") &&
     (jsIncludes normalizedMessage "what" || jsIncludes normalizedMessage "how" ||
      jsIncludes normalizedMessage "your") then
    some "return"
  else if (jsIncludes normalizedMessage "track" || jsIncludes normalizedMessage "order" ||
      jsIncludes normalizedMessage "shipping" || jsIncludes normalizedMessage "package") &&
     (jsIncludes normalizedMessage "how" || jsIncludes normalizedMessage "where" ||
      jsIncludes normalizedMessage "my") then
    some "tracking"
  else
    none

/-- An entry of the conversation history (`{role, content}`). -/
structure ChatMessage where
  role : String
  content : String
deriving DecidableEq

/-- `AIServices.generateResponse`: canned answer when one of the three
questions is detected and has a predefined response, otherwise the fixed
fallback guidance string.  No network request is involved. -/
def AIServices.generateResponse (svc : AIServices) (customerMessage : String)
    (conversationHistory : List ChatMessage) : String :=
  match detectQuestion customerMessage with
  | some detectedQuestion =>
    match predefinedResponses detectedQuestion with
    | some r => r
    | none => fallbackResponse
  | none => fallbackResponse

/-- A sample services object used to instantiate theorems at concrete
inputs. -/
def sampleServices : AIServices :=
  { apiKeys := { openaiKey := "test-openai-key", elevenlabsKey := "test-elevenlabs-key" } }

/-- C1: each of the three seeded keyword questions gets exactly its
corresponding fixed predefined string, for any services object and any
conversation history (no generation API is involved: `generateResponse`
is a pure function of the message). -/
theorem generateResponse_seeded_questions (svc : AIServices) (h : List ChatMessage) :
    svc.generateResponse "what are your hours" h = hoursResponse ∧
    svc.generateResponse "what is your return policy" h = returnResponse ∧
    svc.generateResponse "how do I track my order" h = trackingResponse :=
  ⟨rfl, rfl, rfl⟩

/-- C2 counterexample: the message `"when do you open"` is none of the
three seeded keyword questions, yet `generateResponse` does not return
the fallback string on it (it returns the canned hours answer). -/
theorem fallback_claim_counterexample :
    ("when do you open" ≠ "what are your hours" ∧
     "when do you open" ≠ "what is your return policy" ∧
     "when do you open" ≠ "how do I track my order") ∧
    sampleServices.generateResponse "when do you open" [] ≠ fallbackResponse ∧
    sampleServices.generateResponse "when do you open" [] = hoursResponse := by
  refine ⟨⟨?_, ?_, ?_⟩, ?_, rfl⟩ <;> decide

/-- C2 (amended): for every message on which the keyword detection finds
none of the three question categories, `generateResponse` returns the
fixed fallback guidance string verbatim. -/
theorem generateResponse_fallback_of_undetected (svc : AIServices)
    (h : List ChatMessage) (m : String) (hm : detectQuestion m = none) :
    svc.generateResponse m h = fallbackResponse := by
  unfold AIServices.generateResponse
  rw [hm]

/-- C2 witness: `"hello"` matches no category and gets the fallback. -/
theorem generateResponse_fallback_of_undetected_witness :
    detectQuestion "hello" = none ∧
    sampleServices.generateResponse "hello" [] = fallbackResponse :=
  ⟨rfl, generateResponse_fallback_of_undetected sampleServices [] "hello" rfl⟩

/-- C8: `generateResponse` depends only on the customer message: the
conversation history and the API-key configuration have no influence on
the output (and the function is pure, performing no network call). -/
theorem generateResponse_ignores_history_and_keys (m : String)
    (h₁ h₂ : List ChatMessage) (k₁ k₂ : ApiKeys) :
    AIServices.generateResponse ⟨k₁⟩ m h₁ = AIServices.generateResponse ⟨k₂⟩ m h₂ :=
  rfl

/-- Model of an audio `Blob`: the only attribute the code inspects is its
byte size. -/
structure Blob where
  size : Nat
deriving DecidableEq

/-- Model of the `fetch` response an external API would return: its
success flag (`response.ok`), its body read as text (`response.text()`),
the `text` field of its body parsed as JSON (`response.json().text`, used
by the transcription endpoint), and its body read as raw bytes
(`response.arrayBuffer()`, used by the synthesis endpoint). -/
structure HttpResponse where
  ok : Bool
  bodyText : String
  jsonText : String
  bodyBytes : List Nat
deriving DecidableEq

/-- `AIServices.speechToText`: raises if the OpenAI key is missing (empty
string, i.e. falsy), raises an error string built from the response body
on a non-success status, and otherwise returns the parsed `text` field.
The network response is passed explicitly. -/
def AIServices.speechToText (svc : AIServices) (audioBlob : Blob)
    (response : HttpResponse) : Except String String :=
  if svc.apiKeys.openaiKey = "" then
    Except.error "OpenAI API key not configured"
  else if !response.ok then
    Except.error ("Whisper API error: " ++ response.bodyText)
  else
    Except.ok response.jsonText

/-- `AIServices.textToSpeech`: raises if the ElevenLabs key is missing
(empty string), raises an error string built from the response body on a
non-success status, and otherwise returns the audio bytes. -/
def AIServices.textToSpeech (svc : AIServices) (text : String)
    (response : HttpResponse) : Except String (List Nat) :=
  if svc.apiKeys.elevenlabsKey = "" then
    Except.error "ElevenLabs API key not configured"
  else if !response.ok then
    Except.error ("ElevenLabs API error: " ++ response.bodyText)
  else
    Except.ok response.bodyBytes

/-- C7: `speechToText` and `textToSpeech` fail exactly when the
corresponding key is empty or the HTTP response is non-successful; the
empty-key error is the generic key-not-configured message, the HTTP error
is built from the response body read as text, and on a non-empty key and
a successful response the parsed result is returned normally. -/
theorem speechToText_textToSpeech_error_guards (svc : AIServices) (b : Blob)
    (t : String) (r : HttpResponse) :
    ((svc.speechToText b r).isOk = true ↔ (svc.apiKeys.openaiKey ≠ "" ∧ r.ok = true)) ∧
    (svc.apiKeys.openaiKey = "" →
      svc.speechToText b r = Except.error "OpenAI API key not configured") ∧
    (svc.apiKeys.openaiKey ≠ "" → r.ok = false →
      svc.speechToText b r = Except.error ("Whisper API error: " ++ r.bodyText)) ∧
    (svc.apiKeys.openaiKey ≠ "" → r.ok = true →
      svc.speechToText b r = Except.ok r.jsonText) ∧
    ((svc.textToSpeech t r).isOk = true ↔ (svc.apiKeys.elevenlabsKey ≠ "" ∧ r.ok = true)) ∧
    (svc.apiKeys.elevenlabsKey = "" →
      svc.textToSpeech t r = Except.error "ElevenLabs API key not configured") ∧
    (svc.apiKeys.elevenlabsKey ≠ "" → r.ok = false →
      svc.textToSpeech t r = Except.error ("ElevenLabs API error: " ++ r.bodyText)) ∧
    (svc.apiKeys.elevenlabsKey ≠ "" → r.ok = true →
      svc.textToSpeech t r = Except.ok r.bodyBytes) := by
  unfold AIServices.speechToText AIServices.textToSpeech
  by_cases hk : svc.apiKeys.openaiKey = "" <;>
    by_cases he : svc.apiKeys.elevenlabsKey = "" <;>
      cases hok : r.ok <;>
        simp [hk, he, hok, Except.isOk, Except.toBool]

/-- A sample successful HTTP response for instantiating theorems. -/
def sampleOkResponse : HttpResponse :=
  { ok := true, bodyText := "", jsonText := "hi", bodyBytes := [1, 2, 3] }

/-- C7 witness: with a configured key and a successful response,
`speechToText` returns the parsed transcript. -/
theorem speechToText_textToSpeech_error_guards_witness :
    sampleServices.speechToText ⟨2000⟩ sampleOkResponse = Except.ok "hi" :=
  (speechToText_textToSpeech_error_guards sampleServices ⟨2000⟩ "hi"
    sampleOkResponse).2.2.2.1 (by decide) rfl

/-- Speaker tag of a transcript message (`'agent' | 'customer'`). -/
inductive Speaker where
  | agent
  | customer
deriving DecidableEq

/-- A transcript message (`interface Message` in `CallInterface.tsx`).
Timestamps and `Date.now()`-derived identifiers are modelled by a `Nat`
clock value passed to the operations. -/
structure Message where
  id : String
  text : String
  speaker : Speaker
  timestamp : Nat
deriving DecidableEq

/-- The session status enum (`'idle' | 'connecting' | 'active' | 'ended'`). -/
inductive SessionStatus where
  | idle
  | connecting
  | active
  | ended
deriving DecidableEq

/-- A call session (`interface CallSession`): identifier, ordered message
list, start time, optional end time, and status. -/
structure CallSession where
  id : String
  messages : List Message
  startTime : Nat
  endTime : Option Nat
  status : SessionStatus
deriving DecidableEq

/-- The state variables of the `CallInterface` component that the claims
concern, modelled by explicit state passing: the current call session,
the recording/processing flags, the constructed `AIServices` object, the
conversation history, whether the microphone stream and the periodic
recording interval are active, and the array of completed sessions
persisted under the `ai-agent-sessions` local-storage key. -/
structure CallState where
  callSession : Option CallSession
  isRecording : Bool
  isProcessing : Bool
  aiServices : Option AIServices
  conversationHistory : List ChatMessage
  streamActive : Bool
  intervalActive : Bool
  localSessions : List CallSession
deriving DecidableEq

/-- Observable external effects of one processing cycle, used to state
which network-backed services were invoked. -/
inductive CycleEvent where
  | sttCall
  | genCall
  | ttsCall
deriving DecidableEq

/-- `addMessage` as the program executes it: the `callSession` it reads
is the one captured by the render closure that created the function
(`renderSession`), not the latest stored value, and its `setCallSession`
replaces the stored session wholesale with one computed from that
captured value.  Without a captured session it does nothing. -/
def addMessage (store : CallState) (renderSession : Option CallSession)
    (text : String) (speaker : Speaker) (now : Nat) : CallState :=
  match renderSession with
  | none => store
  | some s =>
    let newMessage : Message :=
      { id := toString now, text := text, speaker := speaker, timestamp := now }
    { store with callSession := some { s with messages := s.messages ++ [newMessage] } }

/-- `processCustomerMessage`: runs against the component state captured
by its render closure (`snap`) while its updates apply to the current
store.  Without AI services it returns unchanged; otherwise it appends
the customer turn, generates the reply, appends the agent turn — both
`addMessage` calls reading the same render-captured `callSession` —
extends the conversation history with both turns, attempts
text-to-speech (whose outcome is caught and ignored), and clears the
processing flag.  The event list records that generation and synthesis
were invoked. -/
def processCustomerMessage (store snap : CallState) (customerMessage : String)
    (now : Nat) (ttsResponse : HttpResponse) : CallState × List CycleEvent :=
  match snap.aiServices with
  | none => (store, [])
  | some a =>
    let store₁ := addMessage store snap.callSession customerMessage Speaker.customer now
    let newHistory := snap.conversationHistory ++ [⟨"user", customerMessage⟩]
    let aiResponse := a.generateResponse customerMessage snap.conversationHistory
    let store₂ := addMessage store₁ snap.callSession aiResponse Speaker.agent now
    let updatedHistory := newHistory ++ [⟨"assistant", aiResponse⟩]
    let _tts := a.textToSpeech aiResponse ttsResponse
    ({ store₂ with conversationHistory := updatedHistory, isProcessing := false },
     [CycleEvent.genCall, CycleEvent.ttsCall])

/-- One tick of the interval installed by `startPeriodicRecording`:
return immediately if the stream or the services are gone; set the
processing flag; discard clips smaller than 1000 bytes; transcribe
(errors are caught, clearing the processing flag); discard empty or
short (after trimming, fewer than 5 characters) transcripts; otherwise
process the customer message.  The recorded clip and the two network
responses are explicit inputs; the event list records which services
were invoked during the tick.  The state `st` plays the role both of the
store and of the state captured by the interval closure, and is passed
as the snapshot to `processCustomerMessage`. -/
def recordingTick (st : CallState) (audioBlob : Blob)
    (sttResponse ttsResponse : HttpResponse) (now : Nat) :
    CallState × List CycleEvent :=
  match st.streamActive, st.aiServices with
  | false, _ => (st, [])
  | true, none => (st, [])
  | true, some a =>
    let stP := { st with isProcessing := true }
    if audioBlob.size < 1000 then
      ({ stP with isProcessing := false }, [])
    else
      match a.speechToText audioBlob sttResponse with
      | Except.error _ => ({ stP with isProcessing := false }, [CycleEvent.sttCall])
      | Except.ok transcript =>
        if transcript = "" ∨ (jsTrim transcript).length < 5 then
          ({ stP with isProcessing := false }, [CycleEvent.sttCall])
        else
          let r := processCustomerMessage stP st transcript now ttsResponse
          (r.1, CycleEvent.sttCall :: r.2)

/-- `endCall`: clears the recording interval, stops the microphone
stream, and — when a session exists — marks it ended with an end
timestamp, stores it back, and appends it to the persisted session list;
finally clears the recording flag and the conversation history. -/
def endCall (st : CallState) (now : Nat) : CallState :=
  let st₁ := { st with intervalActive := false, streamActive := false }
  match st₁.callSession with
  | none => { st₁ with isRecording := false, conversationHistory := [] }
  | some s =>
    let endedSession := { s with status := SessionStatus.ended, endTime := some now }
    { st₁ with callSession := some endedSession,
               localSessions := st₁.localSessions ++ [endedSession],
               isRecording := false,
               conversationHistory := [] }

/-- A sample active session for instantiating theorems. -/
def sampleSession : CallSession :=
  { id := "1",
    messages := [{ id := "1", text := "welcome", speaker := Speaker.agent, timestamp := 0 }],
    startTime := 0, endTime := none, status := SessionStatus.active }

/-- A sample component state with an active call for instantiating
theorems. -/
def sampleState : CallState :=
  { callSession := some sampleSession, isRecording := true, isProcessing := false,
    aiServices := some sampleServices, conversationHistory := [],
    streamActive := true, intervalActive := true, localSessions := [] }

/-- C3: the program does not append both turns.  Both `setCallSession`
updates inside one processing cycle are computed from the same
render-captured session, so the second overwrites the first: even with a
fresh snapshot the resulting transcript extends the prior message list
by only the agent turn, and the customer turn is lost (with the stale
interval-closure snapshot, where the captured session is still `null`,
nothing is appended at all).  Evaluated at a concrete completed cycle. -/
theorem processCustomerMessage_loses_customer_turn :
    (processCustomerMessage sampleState sampleState "what are your hours" 7
        sampleOkResponse).1.callSession =
      some { sampleSession with messages := sampleSession.messages ++
        [{ id := toString 7, text := hoursResponse, speaker := Speaker.agent,
           timestamp := 7 }] } ∧
    (processCustomerMessage sampleState sampleState "what are your hours" 7
        sampleOkResponse).1.callSession ≠
      some { sampleSession with messages := sampleSession.messages ++
        [{ id := toString 7, text := "what are your hours",
           speaker := Speaker.customer, timestamp := 7 },
         { id := toString 7, text := hoursResponse, speaker := Speaker.agent,
           timestamp := 7 }] } := by
  constructor
  · rfl
  · decide

/-- C4: in a tick that records (stream and services present), a clip
smaller than 1000 bytes is discarded: no service is invoked (in
particular no network call and no speech-to-text), and the state is
unchanged apart from the processing flag being cleared. -/
theorem recordingTick_small_clip_discarded (st : CallState) (a : AIServices)
    (b : Blob) (sttR ttsR : HttpResponse) (now : Nat)
    (hstream : st.streamActive = true) (hsvc : st.aiServices = some a)
    (hsize : b.size < 1000) :
    recordingTick st b sttR ttsR now = ({ st with isProcessing := false }, []) := by
  simp [recordingTick, hstream, hsvc, hsize]

/-- C4 witness: a 500-byte clip is discarded without any service call. -/
theorem recordingTick_small_clip_discarded_witness :
    sampleState.streamActive = true ∧ sampleState.aiServices = some sampleServices ∧
    (500 : Nat) < 1000 ∧
    recordingTick sampleState ⟨500⟩ sampleOkResponse sampleOkResponse 7 =
      ({ sampleState with isProcessing := false }, []) :=
  ⟨rfl, rfl, by decide,
    recordingTick_small_clip_discarded sampleState sampleServices ⟨500⟩
      sampleOkResponse sampleOkResponse 7 rfl rfl (by decide)⟩

/-- C5: in a tick whose transcription succeeds but returns an empty
transcript or one shorter than 5 characters after trimming, the
transcript is discarded: generation is not invoked (only the
speech-to-text call happened) and the state is unchanged apart from the
processing flag being cleared. -/
theorem recordingTick_short_transcript_discarded (st : CallState)
    (a : AIServices) (b : Blob) (sttR ttsR : HttpResponse) (now : Nat)
    (t : String) (hstream : st.streamActive = true)
    (hsvc : st.aiServices = some a) (hsize : 1000 ≤ b.size)
    (hstt : a.speechToText b sttR = Except.ok t)
    (hshort : t = "" ∨ (jsTrim t).length < 5) :
    recordingTick st b sttR ttsR now =
      ({ st with isProcessing := false }, [CycleEvent.sttCall]) := by
  have hns : ¬ b.size < 1000 := by omega
  simp [recordingTick, hstream, hsvc, hns, hstt, hshort]

/-- C5 witness: a successful transcription returning `"hi"` (2
characters) is discarded without invoking generation. -/
theorem recordingTick_short_transcript_discarded_witness :
    sampleServices.speechToText ⟨2000⟩ sampleOkResponse = Except.ok "hi" ∧
    ((jsTrim "hi").length < 5) ∧
    recordingTick sampleState ⟨2000⟩ sampleOkResponse sampleOkResponse 7 =
      ({ sampleState with isProcessing := false }, [CycleEvent.sttCall]) :=
  ⟨rfl, by decide,
    recordingTick_short_transcript_discarded sampleState sampleServices ⟨2000⟩
      sampleOkResponse sampleOkResponse 7 "hi" rfl rfl (by decide) rfl
      (Or.inr (by decide))⟩

/-- C6: ending a call with an existing session appends exactly one record
to the persisted session list — the current session marked ended with a
populated end timestamp — and leaves every previously persisted record
unchanged. -/
theorem endCall_appends_one_ended_record (st : CallState) (s : CallSession)
    (now : Nat) (h : st.callSession = some s) :
    (endCall st now).localSessions =
      st.localSessions ++ [{ s with status := SessionStatus.ended, endTime := some now }] ∧
    ({ s with status := SessionStatus.ended, endTime := some now } : CallSession).status =
      SessionStatus.ended ∧
    ({ s with status := SessionStatus.ended, endTime := some now } : CallSession).endTime =
      some now ∧
    (endCall st now).localSessions.take st.localSessions.length = st.localSessions := by
  refine ⟨by simp [endCall, h], rfl, rfl, ?_⟩
  simp [endCall, h, List.take_left]

/-- C6 witness: ending the sample call at time 9 appends exactly the
sample session marked ended at 9. -/
theorem endCall_appends_one_ended_record_witness :
    sampleState.callSession = some sampleSession ∧
    (endCall sampleState 9).localSessions =
      sampleState.localSessions ++
        [{ sampleSession with status := SessionStatus.ended, endTime := some 9 }] :=
  ⟨rfl, (endCall_appends_one_ended_record sampleState sampleSession 9 rfl).1⟩

/-- C10: ending a call when no session exists leaves the persisted
session list completely unchanged. -/
theorem endCall_no_session_preserves_storage (st : CallState) (now : Nat)
    (h : st.callSession = none) :
    (endCall st now).localSessions = st.localSessions := by
  simp [endCall, h]

/-- A sample component state without a call session. -/
def sampleIdleState : CallState :=
  { callSession := none, isRecording := false, isProcessing := false,
    aiServices := some sampleServices, conversationHistory := [],
    streamActive := false, intervalActive := false,
    localSessions := [sampleSession] }

/-- C10 witness: on the idle sample state the persisted list survives
`endCall` unchanged. -/
theorem endCall_no_session_preserves_storage_witness :
    sampleIdleState.callSession = none ∧
    (endCall sampleIdleState 9).localSessions = sampleIdleState.localSessions :=
  ⟨rfl, endCall_no_session_preserves_storage sampleIdleState 9 rfl⟩

/-- Computing `Char.toNat` after `Char.ofNat` on a valid (low-range) code
point returns the code point. -/
theorem charToNat_ofNat (n : Nat) (h : n < 55296) : (Char.ofNat n).toNat = n := by
  unfold Char.ofNat
  rw [dif_pos (Or.inl h)]
  rfl

/-- Lowercasing after uppercasing agrees with lowercasing directly. -/
theorem char_toLower_toUpper (c : Char) : c.toUpper.toLower = c.toLower := by
  by_cases h : c.toNat ≥ 97 ∧ c.toNat ≤ 122
  · have hup : c.toUpper = Char.ofNat (c.toNat - 32) := by
      unfold Char.toUpper
      rw [if_pos h]
    have h1 : (Char.ofNat (c.toNat - 32)).toNat = c.toNat - 32 :=
      charToNat_ofNat _ (by omega)
    rw [hup]
    unfold Char.toLower
    rw [h1]
    rw [if_pos (by omega), if_neg (by omega)]
    have h2 : c.toNat - 32 + 32 = c.toNat := by omega
    rw [h2, Char.ofNat_toNat]
  · have hup : c.toUpper = c := by
      unfold Char.toUpper
      rw [if_neg h]
    rw [hup]

/-- Lowercasing is idempotent. -/
theorem char_toLower_toLower (c : Char) : c.toLower.toLower = c.toLower := by
  by_cases h : c.toNat ≥ 65 ∧ c.toNat ≤ 90
  · have hlo : c.toLower = Char.ofNat (c.toNat + 32) := by
      unfold Char.toLower
      rw [if_pos h]
    have h1 : (Char.ofNat (c.toNat + 32)).toNat = c.toNat + 32 :=
      charToNat_ofNat _ (by omega)
    rw [hlo]
    conv_lhs => unfold Char.toLower
    rw [h1, if_neg (by omega)]
  · have hlo : c.toLower = c := by
      unfold Char.toLower
      rw [if_neg h]
    rw [hlo]
    exact hlo

/-- Characters at or above code point 65 are not whitespace. -/
theorem char_not_whitespace_of_ge (c : Char) (h : 65 ≤ c.toNat) :
    c.isWhitespace = false := by
  unfold Char.isWhitespace
  simp only [Bool.or_eq_false_iff, decide_eq_false_iff_not]
  refine ⟨⟨⟨?_, ?_⟩, ?_⟩, ?_⟩ <;> rintro rfl <;> exact absurd h (by decide)

/-- Uppercasing does not change whether a character is whitespace. -/
theorem char_isWhitespace_toUpper (c : Char) :
    c.toUpper.isWhitespace = c.isWhitespace := by
  by_cases h : c.toNat ≥ 97 ∧ c.toNat ≤ 122
  · have hup : c.toUpper = Char.ofNat (c.toNat - 32) := by
      unfold Char.toUpper
      rw [if_pos h]
    have h1 : (Char.ofNat (c.toNat - 32)).toNat = c.toNat - 32 :=
      charToNat_ofNat _ (by omega)
    rw [hup, char_not_whitespace_of_ge _ (by omega),
        char_not_whitespace_of_ge c (by omega)]
  · have hup : c.toUpper = c := by
      unfold Char.toUpper
      rw [if_neg h]
    rw [hup]

/-- Lowercasing does not change whether a character is whitespace. -/
theorem char_isWhitespace_toLower (c : Char) :
    c.toLower.isWhitespace = c.isWhitespace := by
  by_cases h : c.toNat ≥ 65 ∧ c.toNat ≤ 90
  · have hlo : c.toLower = Char.ofNat (c.toNat + 32) := by
      unfold Char.toLower
      rw [if_pos h]
    have h1 : (Char.ofNat (c.toNat + 32)).toNat = c.toNat + 32 :=
      charToNat_ofNat _ (by omega)
    rw [hlo, char_not_whitespace_of_ge _ (by omega),
        char_not_whitespace_of_ge c (by omega)]
  · have hlo : c.toLower = c := by
      unfold Char.toLower
      rw [if_neg h]
    rw [hlo]

/-- Uppercasing keeps ASCII characters in the ASCII range. -/
theorem char_toUpper_lt_128 (c : Char) (h : c.toNat < 128) :
    c.toUpper.toNat < 128 := by
  by_cases hr : c.toNat ≥ 97 ∧ c.toNat ≤ 122
  · have hup : c.toUpper = Char.ofNat (c.toNat - 32) := by
      unfold Char.toUpper
      rw [if_pos hr]
    rw [hup, charToNat_ofNat _ (by omega)]
    omega
  · have hup : c.toUpper = c := by
      unfold Char.toUpper
      rw [if_neg hr]
    rw [hup]
    exact h

/-- Lowercasing keeps ASCII characters in the ASCII range. -/
theorem char_toLower_lt_128 (c : Char) (h : c.toNat < 128) :
    c.toLower.toNat < 128 := by
  by_cases hr : c.toNat ≥ 65 ∧ c.toNat ≤ 90
  · have hlo : c.toLower = Char.ofNat (c.toNat + 32) := by
      unfold Char.toLower
      rw [if_pos hr]
    rw [hlo, charToNat_ofNat _ (by omega)]
    omega
  · have hlo : c.toLower = c := by
      unfold Char.toLower
      rw [if_neg hr]
    rw [hlo]
    exact h

/-- On ASCII input, lowering after uppering under the modelled JS case
mapping agrees with lowering directly. -/
theorem jsLower_jsUpper_ascii (c : Char) (h : c.toNat < 128) :
    jsCharToLower (jsCharToUpper c) = jsCharToLower c := by
  have hdot : c ≠ dotlessI := by
    intro he
    rw [he] at h
    revert h
    decide
  have hkel : c ≠ kelvinSign := by
    intro he
    rw [he] at h
    revert h
    decide
  have hkel₂ : c.toUpper ≠ kelvinSign := by
    intro he
    have hlt := char_toUpper_lt_128 c h
    rw [he] at hlt
    revert hlt
    decide
  have e₁ : jsCharToUpper c = c.toUpper := by
    unfold jsCharToUpper
    rw [if_neg hdot]
  have e₂ : jsCharToLower c.toUpper = c.toUpper.toLower := by
    unfold jsCharToLower
    rw [if_neg hkel₂]
  have e₃ : jsCharToLower c = c.toLower := by
    unfold jsCharToLower
    rw [if_neg hkel]
  rw [e₁, e₂, e₃]
  exact char_toLower_toUpper c

/-- On ASCII input, the modelled JS lowercasing is idempotent. -/
theorem jsLower_jsLower_ascii (c : Char) (h : c.toNat < 128) :
    jsCharToLower (jsCharToLower c) = jsCharToLower c := by
  have hkel : c ≠ kelvinSign := by
    intro he
    rw [he] at h
    revert h
    decide
  have hkel₂ : c.toLower ≠ kelvinSign := by
    intro he
    have hlt := char_toLower_lt_128 c h
    rw [he] at hlt
    revert hlt
    decide
  have e₁ : jsCharToLower c = c.toLower := by
    unfold jsCharToLower
    rw [if_neg hkel]
  rw [e₁]
  unfold jsCharToLower
  rw [if_neg hkel₂]
  exact char_toLower_toLower c

/-- The modelled JS uppercasing does not change whether a character is
whitespace. -/
theorem char_isWhitespace_jsUpper (c : Char) :
    (jsCharToUpper c).isWhitespace = c.isWhitespace := by
  by_cases h : c = dotlessI
  · rw [h]
    decide
  · have e : jsCharToUpper c = c.toUpper := by
      unfold jsCharToUpper
      rw [if_neg h]
    rw [e]
    exact char_isWhitespace_toUpper c

/-- The modelled JS lowercasing does not change whether a character is
whitespace. -/
theorem char_isWhitespace_jsLower (c : Char) :
    (jsCharToLower c).isWhitespace = c.isWhitespace := by
  by_cases h : c = kelvinSign
  · rw [h]
    decide
  · have e : jsCharToLower c = c.toLower := by
      unfold jsCharToLower
      rw [if_neg h]
    rw [e]
    exact char_isWhitespace_toLower c

/-- Dropping whitespace from the front skips over an all-whitespace
block. -/
theorem dropWhile_ws_append (w x : List Char)
    (hw : ∀ c ∈ w, c.isWhitespace = true) :
    List.dropWhile Char.isWhitespace (w ++ x) =
      List.dropWhile Char.isWhitespace x := by
  rw [List.dropWhile_append, List.dropWhile_eq_nil_iff.mpr hw]
  simp

/-- Trimming ignores an all-whitespace block prepended to the string. -/
theorem trimChars_ws_left (w l : List Char)
    (hw : ∀ c ∈ w, c.isWhitespace = true) :
    trimChars (w ++ l) = trimChars l := by
  unfold trimChars
  rw [dropWhile_ws_append w l hw]

/-- Trimming ignores an all-whitespace block appended to the string. -/
theorem trimChars_ws_right (l w : List Char)
    (hw : ∀ c ∈ w, c.isWhitespace = true) :
    trimChars (l ++ w) = trimChars l := by
  unfold trimChars
  rw [List.dropWhile_append]
  cases hd : List.dropWhile Char.isWhitespace l with
  | nil =>
    rw [List.dropWhile_eq_nil_iff.mpr hw]
    simp
  | cons a as =>
    simp only [List.isEmpty_cons, Bool.false_eq_true, if_false]
    rw [List.reverse_append,
        dropWhile_ws_append w.reverse (a :: as).reverse
          (fun c hc => hw c (List.mem_reverse.mp hc))]

/-- Trimming commutes with mapping a character function that preserves
whitespace-ness. -/
theorem trimChars_map (f : Char → Char)
    (hf : ∀ c, (f c).isWhitespace = c.isWhitespace) (l : List Char) :
    trimChars (l.map f) = (trimChars l).map f := by
  have hcomp : (Char.isWhitespace ∘ f) = Char.isWhitespace := funext hf
  unfold trimChars
  rw [List.dropWhile_map, hcomp, ← List.map_reverse, List.dropWhile_map,
      hcomp, ← List.map_reverse]

/-- Elements surviving `dropWhile` are elements of the original list. -/
theorem mem_of_mem_dropWhile {p : Char → Bool} {l : List Char} {x : Char}
    (h : x ∈ l.dropWhile p) : x ∈ l := by
  induction l with
  | nil => simp at h
  | cons a t ih =>
    rw [List.dropWhile_cons] at h
    by_cases hp : p a = true
    · rw [if_pos hp] at h
      exact List.mem_cons_of_mem a (ih h)
    · rw [if_neg hp] at h
      exact h

/-- Elements surviving trimming are elements of the original list. -/
theorem mem_trimChars {l : List Char} {x : Char} (h : x ∈ trimChars l) :
    x ∈ l := by
  unfold trimChars at h
  rw [List.mem_reverse] at h
  have h₁ := mem_of_mem_dropWhile h
  rw [List.mem_reverse] at h₁
  exact mem_of_mem_dropWhile h₁

/-- Normalisation is invariant under uppercasing an ASCII input. -/
theorem normalizeMessage_toUpper_ascii (m : String)
    (hm : ∀ c ∈ m.data, c.toNat < 128) :
    normalizeMessage (jsToUpper m) = normalizeMessage m := by
  unfold normalizeMessage jsToLower jsTrim jsToUpper
  apply congrArg String.mk
  show (trimChars (m.data.map jsCharToUpper)).map jsCharToLower =
    (trimChars m.data).map jsCharToLower
  rw [trimChars_map jsCharToUpper char_isWhitespace_jsUpper, List.map_map]
  exact List.map_congr_left
    (fun c hc => jsLower_jsUpper_ascii c (hm c (mem_trimChars hc)))

/-- Normalisation is invariant under lowercasing an ASCII input. -/
theorem normalizeMessage_toLower_ascii (m : String)
    (hm : ∀ c ∈ m.data, c.toNat < 128) :
    normalizeMessage (jsToLower m) = normalizeMessage m := by
  unfold normalizeMessage jsToLower jsTrim
  apply congrArg String.mk
  show (trimChars (m.data.map jsCharToLower)).map jsCharToLower =
    (trimChars m.data).map jsCharToLower
  rw [trimChars_map jsCharToLower char_isWhitespace_jsLower, List.map_map]
  exact List.map_congr_left
    (fun c hc => jsLower_jsLower_ascii c (hm c (mem_trimChars hc)))

/-- Normalisation is invariant under surrounding whitespace. -/
theorem normalizeMessage_pad (ws₁ ws₂ m : String)
    (h₁ : ∀ c ∈ ws₁.data, c.isWhitespace = true)
    (h₂ : ∀ c ∈ ws₂.data, c.isWhitespace = true) :
    normalizeMessage (ws₁ ++ m ++ ws₂) = normalizeMessage m := by
  unfold normalizeMessage jsToLower jsTrim
  apply congrArg String.mk
  apply congrArg (List.map jsCharToLower)
  show trimChars (ws₁ ++ m ++ ws₂).data = trimChars m.data
  rw [String.data_append, String.data_append, trimChars_ws_right _ _ h₂,
      trimChars_ws_left _ _ h₁]

/-- Messages with the same normalisation are detected identically. -/
theorem detectQuestion_congr {m₁ m₂ : String}
    (h : normalizeMessage m₁ = normalizeMessage m₂) :
    detectQuestion m₁ = detectQuestion m₂ := by
  unfold detectQuestion
  rw [h]

/-- Messages with the same normalisation get the same response. -/
theorem generateResponse_congr (svc : AIServices) {m₁ m₂ : String}
    (h : normalizeMessage m₁ = normalizeMessage m₂)
    (hist : List ChatMessage) :
    svc.generateResponse m₁ hist = svc.generateResponse m₂ hist := by
  unfold AIServices.generateResponse
  rw [detectQuestion_congr h]

/-- C9 counterexample: case invariance fails over full Unicode input,
exactly as in the program: JS `toUpperCase` maps the dotless i U+0131 to
the ASCII `I`, so `"what tıme"` uppercased normalises to `"what time"`
and draws the canned hours answer, while the original message matches no
keyword rule and draws the fallback string. -/
theorem case_invariance_counterexample :
    sampleServices.generateResponse (jsToUpper "what tıme") [] ≠
      sampleServices.generateResponse "what tıme" [] ∧
    sampleServices.generateResponse (jsToUpper "what tıme") [] = hoursResponse ∧
    sampleServices.generateResponse "what tıme" [] = fallbackResponse := by
  refine ⟨?_, rfl, rfl⟩
  decide

/-- C9 (amended): for every message consisting of ASCII characters,
`generateResponse` is invariant under letter case and leading/trailing
whitespace of its input: uppercasing, lowercasing, or surrounding the
message with whitespace leaves the response unchanged. -/
theorem generateResponse_case_whitespace_invariant (svc : AIServices)
    (m : String) (hist : List ChatMessage) (ws₁ ws₂ : String)
    (hm : ∀ c ∈ m.data, c.toNat < 128)
    (h₁ : ∀ c ∈ ws₁.data, c.isWhitespace = true)
    (h₂ : ∀ c ∈ ws₂.data, c.isWhitespace = true) :
    svc.generateResponse (jsToUpper m) hist = svc.generateResponse m hist ∧
    svc.generateResponse (jsToLower m) hist = svc.generateResponse m hist ∧
    svc.generateResponse (ws₁ ++ m ++ ws₂) hist = svc.generateResponse m hist :=
  ⟨generateResponse_congr svc (normalizeMessage_toUpper_ascii m hm) hist,
   generateResponse_congr svc (normalizeMessage_toLower_ascii m hm) hist,
   generateResponse_congr svc (normalizeMessage_pad ws₁ ws₂ m h₁ h₂) hist⟩

/-- C9 witness: for the ASCII message `"what are your hours"` and
single-space padding, all variants return the same response. -/
theorem generateResponse_case_whitespace_invariant_witness :
    (∀ c ∈ ("what are your hours" : String).data, c.toNat < 128) ∧
    (∀ c ∈ (" " : String).data, c.isWhitespace = true) ∧
    (sampleServices.generateResponse (jsToUpper "what are your hours") [] =
      sampleServices.generateResponse "what are your hours" [] ∧
     sampleServices.generateResponse (jsToLower "what are your hours") [] =
      sampleServices.generateResponse "what are your hours" [] ∧
     sampleServices.generateResponse (" " ++ "what are your hours" ++ " ") [] =
      sampleServices.generateResponse "what are your hours" []) :=
  ⟨by decide, by decide,
   generateResponse_case_whitespace_invariant sampleServices
     "what are your hours" [] " " " " (by decide) (by decide) (by decide)⟩
